import Mathlib

/-!
Verification of the `assert_size` attribute from `assert-size-derive`
(src/src/lib.rs), shallowly embedded in Lean 4.

The embedding mirrors the Rust source:
  * `AssertSizeAttributeArgs.parse` models the `Parse` impl at lib.rs:37-46:
    it parses a single integer literal token (syn `LitInt` accepts binary,
    octal, decimal and hexadecimal literals, with an optional suffix), then
    converts it with `base10_parse::<usize>` (which yields the literal value
    regardless of the base it was written in, and fails on overflow of the
    host native unsigned width), and the `parse_macro_input` wrapper rejects
    any trailing token.
  * `parseDeriveInput` models syn's `DeriveInput` parse: it accepts struct,
    enum and union declarations and rejects other items.
  * `assert_size` models the proc macro at lib.rs:106-123: parse the
    attribute arguments, parse the item, and emit a `const _ : () =
    assert!(desired == size_of::<Ident>())` item (referencing the bare
    identifier `input.ident`, no generic arguments) followed by the parsed
    declaration unchanged.

Host layout computation is treated as an external oracle: a function
assigning a size to each type path (for the emitted assertion) or to each
declaration, exactly as the source defers to `core::mem::size_of`.
-/

/-- The base an integer literal token was written in. -/
inductive IntBase where
  | binary
  | octal
  | decimal
  | hex
  deriving DecidableEq, Repr

/-- A token of the attribute argument stream.  An integer literal token
carries the base it was written in, its numeric value, its (possibly empty)
suffix and its source span; any other token carries its text and span. -/
inductive Token where
  | intLit (base : IntBase) (value : Nat) (sfx : String) (span : Nat)
  | other (text : String) (span : Nat)
  deriving DecidableEq, Repr

/-- Source span of a token. -/
def Token.span : Token → Nat
  | .intLit _ _ _ s => s
  | .other _ s => s

/-- The attribute token stream handed to the macro, with the span used for
end-of-input diagnostics. -/
structure AttrInput where
  tokens : List Token
  endSpan : Nat
  deriving DecidableEq, Repr

/-- A compile-time diagnostic: a source span and a message. -/
structure Diag where
  span : Nat
  msg : String
  deriving DecidableEq, Repr

/-- Largest value of the host platform native unsigned integer width
(`usize` on a 64-bit host). -/
def usizeMax : Nat := 2 ^ 64 - 1

/-- The parsed attribute arguments (struct `AssertSizeAttributeArgs`,
lib.rs:33-35). -/
structure AssertSizeAttributeArgs where
  desired_size_in_bytes : Nat
  deriving DecidableEq, Repr

/-- The `Parse` impl for `AssertSizeAttributeArgs` (lib.rs:37-46) as run by
`parse_macro_input`: parse one `LitInt` (any base, any suffix), convert it
with `base10_parse::<usize>` (the literal value, failing on overflow), then
require that no token remains. -/
def AssertSizeAttributeArgs.parse (input : AttrInput) :
    Except Diag AssertSizeAttributeArgs :=
  match input.tokens with
  | [] => Except.error ⟨input.endSpan, "expected integer literal"⟩
  | Token.other _ s :: _ => Except.error ⟨s, "expected integer literal"⟩
  | Token.intLit _ v _ s :: rest =>
    if v ≤ usizeMax then
      match rest with
      | [] => Except.ok ⟨v⟩
      | t :: _ => Except.error ⟨t.span, "unexpected token"⟩
    else
      Except.error ⟨s, "number too large to fit in target type"⟩

/-- A generic parameter of a declaration. -/
inductive GenericParam where
  | lifetimeParam (name : String)
  | typeParam (name : String)
  | constParam (name : String) (ty : String)
  deriving DecidableEq, Repr

/-- Visibility of a declaration. -/
inductive Visibility where
  | pub
  | inherited
  deriving DecidableEq, Repr

/-- The fields of a struct or of an enum variant. -/
inductive Fields where
  | named (fields : List (String × String))
  | unnamed (types : List String)
  | unit
  deriving DecidableEq, Repr

/-- An enum variant: name, fields and optional explicit discriminant. -/
structure Variant where
  name : String
  fields : Fields
  discriminant : Option Int
  deriving DecidableEq, Repr

/-- The body of a struct, enum or union declaration (syn `Data`). -/
inductive Data where
  | dataStruct (fields : Fields)
  | dataEnum (variants : List Variant)
  | dataUnion (fields : List (String × String))
  deriving DecidableEq, Repr

/-- syn `DeriveInput`: outer attributes, visibility, identifier, generic
parameters and body of a struct/enum/union declaration. -/
structure DeriveInput where
  attrs : List String
  vis : Visibility
  ident : String
  generics : List GenericParam
  data : Data
  deriving DecidableEq, Repr

/-- An item the attribute may be applied to.  Struct, enum and union
declarations carry their full syntactic structure; other items (functions,
modules, traits) carry their name and span, enough for the parse
diagnostic. -/
inductive Item where
  | structDecl (attrs : List String) (vis : Visibility) (name : String)
      (generics : List GenericParam) (fields : Fields)
  | enumDecl (attrs : List String) (vis : Visibility) (name : String)
      (generics : List GenericParam) (variants : List Variant)
  | unionDecl (attrs : List String) (vis : Visibility) (name : String)
      (generics : List GenericParam) (fields : List (String × String))
  | fnDecl (name : String) (span : Nat)
  | modDecl (name : String) (span : Nat)
  | traitDecl (name : String) (span : Nat)
  deriving DecidableEq, Repr

/-- Whether the item is a struct, enum or union declaration. -/
def Item.isDataDecl : Item → Bool
  | .structDecl .. => true
  | .enumDecl .. => true
  | .unionDecl .. => true
  | _ => false

/-- The declared name of a data declaration (and of the other items). -/
def Item.declName : Item → String
  | .structDecl _ _ n _ _ => n
  | .enumDecl _ _ n _ _ => n
  | .unionDecl _ _ n _ _ => n
  | .fnDecl n _ => n
  | .modDecl n _ => n
  | .traitDecl n _ => n

/-- The generic parameters of a data declaration. -/
def Item.declGenerics : Item → List GenericParam
  | .structDecl _ _ _ g _ => g
  | .enumDecl _ _ _ g _ => g
  | .unionDecl _ _ _ g _ => g
  | _ => []

/-- The outer attributes of a data declaration. -/
def Item.declAttrs : Item → List String
  | .structDecl a _ _ _ _ => a
  | .enumDecl a _ _ _ _ => a
  | .unionDecl a _ _ _ _ => a
  | _ => []

/-- The visibility of a data declaration. -/
def Item.declVis : Item → Visibility
  | .structDecl _ v _ _ _ => v
  | .enumDecl _ v _ _ _ => v
  | .unionDecl _ v _ _ _ => v
  | _ => Visibility.inherited

/-- The body of a data declaration, `none` for other items. -/
def Item.declData : Item → Option Data
  | .structDecl _ _ _ _ f => some (Data.dataStruct f)
  | .enumDecl _ _ _ _ vs => some (Data.dataEnum vs)
  | .unionDecl _ _ _ _ f => some (Data.dataUnion f)
  | _ => none

/-- The span at which a non-data item is reported by the parse
diagnostic. -/
def Item.errSpan : Item → Nat
  | .fnDecl _ s => s
  | .modDecl _ s => s
  | .traitDecl _ s => s
  | _ => 0

/-- Whether a data declaration has no fields at all: a unit struct, a
struct with empty braces or parentheses, an enum with no variants, or a
union with no fields. -/
def Item.hasNoFields : Item → Bool
  | .structDecl _ _ _ _ Fields.unit => true
  | .structDecl _ _ _ _ (Fields.named []) => true
  | .structDecl _ _ _ _ (Fields.unnamed []) => true
  | .enumDecl _ _ _ _ [] => true
  | .unionDecl _ _ _ _ [] => true
  | _ => false

/-- syn's `DeriveInput` parse (`parse_macro_input!(item as DeriveInput)`,
lib.rs:110): succeeds on struct/enum/union declarations, keeping every
component, and fails with a parse diagnostic on any other item. -/
def parseDeriveInput : Item → Except Diag DeriveInput
  | .structDecl a v n g f => Except.ok ⟨a, v, n, g, Data.dataStruct f⟩
  | .enumDecl a v n g vs => Except.ok ⟨a, v, n, g, Data.dataEnum vs⟩
  | .unionDecl a v n g f => Except.ok ⟨a, v, n, g, Data.dataUnion f⟩
  | .fnDecl _ s => Except.error ⟨s, "expected one of: struct, enum, union"⟩
  | .modDecl _ s => Except.error ⟨s, "expected one of: struct, enum, union"⟩
  | .traitDecl _ s => Except.error ⟨s, "expected one of: struct, enum, union"⟩

/-- The type named inside `size_of::<...>()` in the emitted assertion: a
path made of a name and the generic arguments applied to it. -/
structure TypePath where
  name : String
  genericArgs : List GenericParam
  deriving DecidableEq, Repr

/-- One item of the macro output token stream: the anonymous constant
`const _ : () = assert!(desired == ::core::mem::size_of::<ty>())`, or an
emitted declaration. -/
inductive OutputItem where
  | constAssertion (desired : Nat) (ty : TypePath)
  | item (decl : DeriveInput)
  deriving DecidableEq, Repr

/-- The `assert_size` proc macro (lib.rs:106-123): parse the attribute
argument, parse the item as a `DeriveInput`, and emit the const assertion
(`size_of` applied to the bare identifier `input.ident`) followed by the
input declaration unchanged. -/
def assert_size (attr : AttrInput) (item : Item) :
    Except Diag (List OutputItem) := do
  let args ← AssertSizeAttributeArgs.parse attr
  let input ← parseDeriveInput item
  Except.ok [OutputItem.constAssertion args.desired_size_in_bytes
      ⟨input.ident, []⟩,
    OutputItem.item input]

/-- Whether one output item compiles under a host size oracle: a const
assertion compiles exactly when `assert!` receives `true`, that is when the
desired size equals the host-computed size of the referenced type; a
declaration always compiles. -/
def OutputItem.compilesUnder (sizeEnv : TypePath → Nat) :
    OutputItem → Bool
  | .constAssertion desired ty => desired == sizeEnv ty
  | .item _ => true

/-- Whether a whole output stream compiles under a host size oracle. -/
def outputCompiles (sizeEnv : TypePath → Nat) (out : List OutputItem) :
    Bool :=
  out.all (OutputItem.compilesUnder sizeEnv)

/-- The type path of the first const assertion in an expansion result. -/
def emittedTypePath : Except Diag (List OutputItem) → Option TypePath
  | Except.ok (OutputItem.constAssertion _ ty :: _) => some ty
  | _ => none

/-- The declaration re-emitted by an expansion result. -/
def emittedDecl : Except Diag (List OutputItem) → Option DeriveInput
  | Except.ok [_, OutputItem.item d] => some d
  | _ => none

/-- An attribute stream holding the single plain decimal literal `n`. -/
def mkAttr (n : Nat) : AttrInput :=
  ⟨[Token.intLit IntBase.decimal n "" 0], 0⟩

/-- The two-byte example struct from the test suite (`MyData`). -/
def myDataItem : Item :=
  Item.structDecl [] Visibility.inherited "MyData" []
    (Fields.named [("foo", "u8"), ("bar", "u8")])

/-- The generic struct from the test suite (`GenericStruct<T>`). -/
def genericStructItem : Item :=
  Item.structDecl [] Visibility.inherited "GenericStruct"
    [GenericParam.typeParam "T"] (Fields.named [("value", "T")])

/-- The empty unit struct from the test suite (`ZeroSized`). -/
def zeroSizedItem : Item :=
  Item.structDecl [] Visibility.inherited "ZeroSized" [] Fields.unit

/-! ## Shared helper lemmas -/

/-- A single integer literal within the native width parses to its value,
whatever base it was written in and whatever its suffix. -/
theorem parse_single_intLit (b : IntBase) (v : Nat) (sfx : String)
    (s e : Nat) (h : v ≤ usizeMax) :
    AssertSizeAttributeArgs.parse ⟨[Token.intLit b v sfx s], e⟩ =
      Except.ok ⟨v⟩ := by
  simp [AssertSizeAttributeArgs.parse, h]

/-- The canonical decimal attribute stream parses to its value. -/
theorem parse_mkAttr (n : Nat) (h : n ≤ usizeMax) :
    AssertSizeAttributeArgs.parse (mkAttr n) = Except.ok ⟨n⟩ :=
  parse_single_intLit IntBase.decimal n "" 0 0 h

/-- On a data declaration, with a successfully parsed attribute, the
expansion is exactly the const assertion over the bare identifier followed
by the parsed declaration. -/
theorem assert_size_ok (attr : AttrInput) (item : Item)
    (args : AssertSizeAttributeArgs) (input : DeriveInput)
    (hattr : AssertSizeAttributeArgs.parse attr = Except.ok args)
    (hitem : parseDeriveInput item = Except.ok input) :
    assert_size attr item =
      Except.ok [OutputItem.constAssertion args.desired_size_in_bytes
          ⟨input.ident, []⟩,
        OutputItem.item input] := by
  unfold assert_size
  rw [hattr, hitem]
  rfl

/-- A data declaration parses to the `DeriveInput` with the same
components. -/
theorem parseDeriveInput_data (item : Item) (h : item.isDataDecl = true) :
    parseDeriveInput item =
      Except.ok ⟨item.declAttrs, item.declVis, item.declName,
        item.declGenerics, (item.declData).getD (Data.dataStruct Fields.unit)⟩ := by
  cases item <;> simp_all [Item.isDataDecl, parseDeriveInput, Item.declAttrs,
    Item.declVis, Item.declName, Item.declGenerics, Item.declData]

/-! ## Claim theorems -/

/-- C1 counterexample: on the generic declaration `struct GenericStruct<T>`
the emitted assertion references the bare identifier `GenericStruct` with no
generic arguments, not the unspecialized generic form
`GenericStruct<T>` the claim requires. -/
theorem assert_size_generic_bare_ident_cex :
    Item.declGenerics genericStructItem = [GenericParam.typeParam "T"] ∧
    emittedTypePath (assert_size (mkAttr 8) genericStructItem) =
      some ⟨"GenericStruct", []⟩ ∧
    some (TypePath.mk "GenericStruct" []) ≠
      some (TypePath.mk "GenericStruct" [GenericParam.typeParam "T"]) := by
  refine ⟨rfl, ?_, by decide⟩
  rfl

/-- C1 amended: for every annotated declaration, generic or not, the
emitted assertion references the declared type by its bare identifier
alone, with no generic arguments reapplied. -/
theorem assert_size_emits_bare_ident (attr : AttrInput) (item : Item)
    (args : AssertSizeAttributeArgs) (input : DeriveInput)
    (hattr : AssertSizeAttributeArgs.parse attr = Except.ok args)
    (hitem : parseDeriveInput item = Except.ok input) :
    emittedTypePath (assert_size attr item) =
      some ⟨item.declName, []⟩ := by
  rw [assert_size_ok attr item args input hattr hitem]
  cases item <;> simp [parseDeriveInput] at hitem <;>
    simp [emittedTypePath, Item.declName, ← hitem]

/-- C1 amended witness: instantiated at the generic struct from the test
suite with argument 8. -/
theorem assert_size_emits_bare_ident_witness :
    emittedTypePath (assert_size (mkAttr 8) genericStructItem) =
      some ⟨Item.declName genericStructItem, []⟩ :=
  assert_size_emits_bare_ident (mkAttr 8) genericStructItem ⟨8⟩
    ⟨[], Visibility.inherited, "GenericStruct", [GenericParam.typeParam "T"],
      Data.dataStruct (Fields.named [("value", "T")])⟩
    (parse_mkAttr 8 (by decide)) rfl

/-- C2 counterexample: the hexadecimal literal `0x10` is accepted by the
argument parser, which returns its value 16 instead of failing. -/
theorem hex_literal_accepted_cex :
    AssertSizeAttributeArgs.parse ⟨[Token.intLit IntBase.hex 16 "" 3], 0⟩ =
      Except.ok ⟨16⟩ :=
  parse_single_intLit IntBase.hex 16 "" 3 0 (by decide)

/-- C2 amended: an integer literal written in any base (binary, octal,
decimal or hexadecimal) whose value fits the native unsigned width is
accepted, and the parser returns its numeric value: `base10_parse` converts
the value regardless of the base the literal was written in. -/
theorem parse_accepts_any_base (b : IntBase) (v : Nat) (sfx : String)
    (s e : Nat) (h : v ≤ usizeMax) :
    AssertSizeAttributeArgs.parse ⟨[Token.intLit b v sfx s], e⟩ =
      Except.ok ⟨v⟩ :=
  parse_single_intLit b v sfx s e h

/-- C2 amended witness: the binary literal `0b101` parses to 5. -/
theorem parse_accepts_any_base_witness :
    AssertSizeAttributeArgs.parse ⟨[Token.intLit IntBase.binary 5 "" 1], 0⟩ =
      Except.ok ⟨5⟩ :=
  parse_accepts_any_base IntBase.binary 5 "" 1 0 (by decide)

/-- C6: a single plain base-10 unsigned integer literal whose value is
representable in the native unsigned width parses successfully to exactly
its numeric value. -/
theorem parse_success_base10 (v s e : Nat) (h : v ≤ usizeMax) :
    AssertSizeAttributeArgs.parse ⟨[Token.intLit IntBase.decimal v "" s], e⟩ =
      Except.ok ⟨v⟩ :=
  parse_single_intLit IntBase.decimal v "" s e h

/-- C6 witness: the literal `2` parses to 2. -/
theorem parse_success_base10_witness :
    AssertSizeAttributeArgs.parse ⟨[Token.intLit IntBase.decimal 2 "" 0], 0⟩ =
      Except.ok ⟨2⟩ :=
  parse_success_base10 2 0 0 (by decide)

/-- C10: an integer literal carrying a type suffix (`2usize`) is accepted
by the argument parser, which returns its numeric value 2: `base10_parse`
ignores the suffix. -/
theorem parse_accepts_suffixed_literal :
    AssertSizeAttributeArgs.parse
        ⟨[Token.intLit IntBase.decimal 2 "usize" 0], 0⟩ =
      Except.ok ⟨2⟩ :=
  parse_single_intLit IntBase.decimal 2 "usize" 0 0 (by decide)

/-- C3: for a non-generic struct/enum/union declaration whose host-computed
size is `S`, the expansion with argument `n` succeeds and its assertion
compiles exactly when `n = S`; moreover a declaration with no fields, whose
host size is 0, is accepted with expected size 0. -/
theorem assert_size_nongeneric_exact (sizeEnv : TypePath → Nat)
    (item : Item) (S n : Nat)
    (hdata : item.isDataDecl = true)
    (_hng : item.declGenerics = [])
    (hS : sizeEnv ⟨item.declName, []⟩ = S)
    (hn : n ≤ usizeMax) :
    ∃ out, assert_size (mkAttr n) item = Except.ok out ∧
      (outputCompiles sizeEnv out = true ↔ n = S) ∧
      (item.hasNoFields = true → S = 0 →
        ∃ out0, assert_size (mkAttr 0) item = Except.ok out0 ∧
          outputCompiles sizeEnv out0 = true) := by
  have hin := parseDeriveInput_data item hdata
  refine ⟨_, assert_size_ok (mkAttr n) item ⟨n⟩ _ (parse_mkAttr n hn) hin,
    ?_, ?_⟩
  · simp [outputCompiles, OutputItem.compilesUnder, hS]
  · intro _ hS0
    refine ⟨_, assert_size_ok (mkAttr 0) item ⟨0⟩ _
      (parse_mkAttr 0 (Nat.zero_le _)) hin, ?_⟩
    simp [outputCompiles, OutputItem.compilesUnder, hS, hS0]

/-- C3 witness: the empty unit struct from the test suite, under a host
oracle assigning it size 0, with argument 0. -/
theorem assert_size_nongeneric_exact_witness :
    ∃ out, assert_size (mkAttr 0) zeroSizedItem = Except.ok out ∧
      (outputCompiles (fun _ => 0) out = true ↔ 0 = 0) ∧
      (Item.hasNoFields zeroSizedItem = true → 0 = 0 →
        ∃ out0, assert_size (mkAttr 0) zeroSizedItem = Except.ok out0 ∧
          outputCompiles (fun _ => 0) out0 = true) :=
  assert_size_nongeneric_exact (fun _ => 0) zeroSizedItem 0 0 rfl rfl rfl
    (Nat.zero_le _)

/-- C4: every successful expansion is exactly two output items: the
anonymous const assertion over the parsed desired size and the bare
identifier, followed by the declaration, with attributes, visibility, name,
generic parameters and body all preserved from the annotated item. -/
theorem assert_size_output_shape (attr : AttrInput) (item : Item)
    (out : List OutputItem)
    (h : assert_size attr item = Except.ok out) :
    ∃ args input,
      AssertSizeAttributeArgs.parse attr = Except.ok args ∧
      parseDeriveInput item = Except.ok input ∧
      out = [OutputItem.constAssertion args.desired_size_in_bytes
          ⟨input.ident, []⟩,
        OutputItem.item input] ∧
      input.attrs = item.declAttrs ∧
      input.vis = item.declVis ∧
      input.ident = item.declName ∧
      input.generics = item.declGenerics ∧
      some input.data = item.declData := by
  unfold assert_size at h
  cases hattr : AssertSizeAttributeArgs.parse attr with
  | error d => rw [hattr] at h; simp [Bind.bind, Except.bind] at h
  | ok args =>
    rw [hattr] at h
    cases hitem : parseDeriveInput item with
    | error d => rw [hitem] at h; simp [Bind.bind, Except.bind] at h
    | ok input =>
      rw [hitem] at h
      simp only [Bind.bind, Except.bind, Except.ok.injEq] at h
      refine ⟨args, input, rfl, rfl, h.symm, ?_, ?_, ?_, ?_, ?_⟩ <;>
        cases item <;> simp [parseDeriveInput] at hitem <;>
          simp [← hitem, Item.declAttrs, Item.declVis, Item.declName,
            Item.declGenerics, Item.declData]

/-- C4 witness: the two-byte struct from the test suite with argument 2. -/
theorem assert_size_output_shape_witness :
    ∃ args input,
      AssertSizeAttributeArgs.parse (mkAttr 2) = Except.ok args ∧
      parseDeriveInput myDataItem = Except.ok input ∧
      [OutputItem.constAssertion 2 ⟨"MyData", []⟩,
        OutputItem.item ⟨[], Visibility.inherited, "MyData", [],
          Data.dataStruct (Fields.named [("foo", "u8"), ("bar", "u8")])⟩] =
        [OutputItem.constAssertion args.desired_size_in_bytes
            ⟨input.ident, []⟩,
          OutputItem.item input] ∧
      input.attrs = Item.declAttrs myDataItem ∧
      input.vis = Item.declVis myDataItem ∧
      input.ident = Item.declName myDataItem ∧
      input.generics = Item.declGenerics myDataItem ∧
      some input.data = Item.declData myDataItem :=
  assert_size_output_shape (mkAttr 2) myDataItem
    [OutputItem.constAssertion 2 ⟨"MyData", []⟩,
      OutputItem.item ⟨[], Visibility.inherited, "MyData", [],
        Data.dataStruct (Fields.named [("foo", "u8"), ("bar", "u8")])⟩]
    (assert_size_ok (mkAttr 2) myDataItem ⟨2⟩
      ⟨[], Visibility.inherited, "MyData", [],
        Data.dataStruct (Fields.named [("foo", "u8"), ("bar", "u8")])⟩
      (parse_mkAttr 2 (by decide)) rfl)

/-- C5: the argument parser fails, with the diagnostic anchored at the
offending position, when the input is empty (anchored at the stream end),
when the first token is not an integer literal, when a token follows the
integer literal (anchored at that extra token), and when the literal value
overflows the native unsigned width (anchored at the literal). -/
theorem parse_failure_cases :
    (∀ e, AssertSizeAttributeArgs.parse ⟨[], e⟩ =
        Except.error ⟨e, "expected integer literal"⟩) ∧
    (∀ t s rest e,
      AssertSizeAttributeArgs.parse ⟨Token.other t s :: rest, e⟩ =
        Except.error ⟨s, "expected integer literal"⟩) ∧
    (∀ b v sfx s t rest e, v ≤ usizeMax →
      AssertSizeAttributeArgs.parse
          ⟨Token.intLit b v sfx s :: t :: rest, e⟩ =
        Except.error ⟨t.span, "unexpected token"⟩) ∧
    (∀ b v sfx s rest e, usizeMax < v →
      AssertSizeAttributeArgs.parse ⟨Token.intLit b v sfx s :: rest, e⟩ =
        Except.error ⟨s, "number too large to fit in target type"⟩) := by
  refine ⟨fun e => rfl, fun t s rest e => rfl, ?_, ?_⟩
  · intro b v sfx s t rest e h
    simp [AssertSizeAttributeArgs.parse, h]
  · intro b v sfx s rest e h
    simp [AssertSizeAttributeArgs.parse, Nat.not_le.mpr h]

/-- C5 witness: the four failure cases at concrete inputs. -/
theorem parse_failure_cases_witness :
    AssertSizeAttributeArgs.parse ⟨[], 7⟩ =
      Except.error ⟨7, "expected integer literal"⟩ ∧
    AssertSizeAttributeArgs.parse ⟨[Token.other "foo" 3], 0⟩ =
      Except.error ⟨3, "expected integer literal"⟩ ∧
    AssertSizeAttributeArgs.parse
        ⟨[Token.intLit IntBase.decimal 2 "" 1, Token.other "x" 4], 0⟩ =
      Except.error ⟨4, "unexpected token"⟩ ∧
    AssertSizeAttributeArgs.parse
        ⟨[Token.intLit IntBase.decimal (2 ^ 64) "" 2], 0⟩ =
      Except.error ⟨2, "number too large to fit in target type"⟩ :=
  ⟨parse_failure_cases.1 7,
   parse_failure_cases.2.1 "foo" 3 [] 0,
   parse_failure_cases.2.2.1 IntBase.decimal 2 "" 1 (Token.other "x" 4) [] 0
     (by decide),
   parse_failure_cases.2.2.2 IntBase.decimal (2 ^ 64) "" 2 [] 0 (by decide)⟩

/-- C7: on an item that is not a struct, enum or union declaration (a
function, module or trait), the macro fails with a parse diagnostic and
produces no output token stream, whatever the attribute input. -/
theorem assert_size_rejects_non_data (attr : AttrInput) (item : Item)
    (hitem : item.isDataDecl = false) :
    ∃ d, assert_size attr item = Except.error d := by
  cases hattr : AssertSizeAttributeArgs.parse attr with
  | error d => exact ⟨d, by unfold assert_size; rw [hattr]; rfl⟩
  | ok args =>
    refine ⟨⟨item.errSpan, "expected one of: struct, enum, union"⟩, ?_⟩
    unfold assert_size
    rw [hattr]
    cases item <;> simp_all [Item.isDataDecl, parseDeriveInput, Item.errSpan,
      Bind.bind, Except.bind]

/-- C7 witness: a function item with argument 1. -/
theorem assert_size_rejects_non_data_witness :
    ∃ d, assert_size (mkAttr 1) (Item.fnDecl "main" 9) = Except.error d :=
  assert_size_rejects_non_data (mkAttr 1) (Item.fnDecl "main" 9) rfl

/-- C8: the declaration in a successful expansion is exactly the parsed
input declaration, so any host layout oracle over declarations assigns the
emitted type the same size as the same declaration without the attribute. -/
theorem assert_size_preserves_decl (sizeOfDecl : DeriveInput → Nat)
    (attr : AttrInput) (item : Item) (out : List OutputItem)
    (decl : DeriveInput)
    (h : assert_size attr item = Except.ok out)
    (hdecl : parseDeriveInput item = Except.ok decl) :
    ∃ d, emittedDecl (assert_size attr item) = some d ∧ d = decl ∧
      sizeOfDecl d = sizeOfDecl decl := by
  cases hattr : AssertSizeAttributeArgs.parse attr with
  | error d =>
    unfold assert_size at h
    rw [hattr] at h
    simp [Bind.bind, Except.bind] at h
  | ok args =>
    exact ⟨decl,
      by rw [assert_size_ok attr item args decl hattr hdecl]; rfl, rfl, rfl⟩

/-- C8 witness: the two-byte struct from the test suite, under a host
oracle assigning every declaration size 2. -/
theorem assert_size_preserves_decl_witness :
    ∃ d, emittedDecl (assert_size (mkAttr 2) myDataItem) = some d ∧
      d = ⟨[], Visibility.inherited, "MyData", [],
        Data.dataStruct (Fields.named [("foo", "u8"), ("bar", "u8")])⟩ ∧
      (fun _ : DeriveInput => 2) d = (fun _ : DeriveInput => 2)
        ⟨[], Visibility.inherited, "MyData", [],
          Data.dataStruct (Fields.named [("foo", "u8"), ("bar", "u8")])⟩ :=
  assert_size_preserves_decl (fun _ => 2) (mkAttr 2) myDataItem
    [OutputItem.constAssertion 2 ⟨"MyData", []⟩,
      OutputItem.item ⟨[], Visibility.inherited, "MyData", [],
        Data.dataStruct (Fields.named [("foo", "u8"), ("bar", "u8")])⟩]
    ⟨[], Visibility.inherited, "MyData", [],
      Data.dataStruct (Fields.named [("foo", "u8"), ("bar", "u8")])⟩
    (assert_size_ok (mkAttr 2) myDataItem ⟨2⟩
      ⟨[], Visibility.inherited, "MyData", [],
        Data.dataStruct (Fields.named [("foo", "u8"), ("bar", "u8")])⟩
      (parse_mkAttr 2 (by decide)) rfl) rfl

/-- C9: the expansion is a pure function of its two token-stream inputs:
equal attribute streams and equal items give equal results, success or
failure alike. -/
theorem assert_size_deterministic (a₁ a₂ : AttrInput) (i₁ i₂ : Item)
    (ha : a₁ = a₂) (hi : i₁ = i₂) :
    assert_size a₁ i₁ = assert_size a₂ i₂ := by
  rw [ha, hi]

/-- C9 witness: two invocations on the two-byte struct with argument 2. -/
theorem assert_size_deterministic_witness :
    assert_size (mkAttr 2) myDataItem = assert_size (mkAttr 2) myDataItem :=
  assert_size_deterministic (mkAttr 2) (mkAttr 2) myDataItem myDataItem
    rfl rfl
